import Mathlib

/-!
Verification of `ytmad.py` (YouTube Album Downloader), a single-file
subprocess-orchestration script.  The script is embedded shallowly:

* the stdout of the metadata probe (`yt-dlp --dump-json --flat-playlist`)
  is modelled as a list of `Line`s, where a line is either empty, malformed
  (anything on which `json.loads` fails or the subsequent field accesses
  raise, caught by the bare `except: continue`), or a parsed JSON object
  carrying optional `title`, `id` and `playlist_title` string fields;
* subprocess outcomes are modelled by their exit codes (plus a `notFound`
  case for an absent binary, and an `interrupted` case for a
  KeyboardInterrupt during the download wait);
* the filesystem is a list of existing directory paths (each a list of
  components); `Path.mkdir` is modelled with its real pathlib semantics
  (`exist_ok=True`, `parents=False`: an existing directory is fine, a
  missing parent raises FileNotFoundError);
* every function returns, besides its value, the list of observable
  `Event`s it produces (prints, subprocess invocations, the prompt),
  in order, so that ordering claims ("created before the downloader is
  invoked") are statements about the trace.
-/

namespace Ytmad

/-- A track record parsed from one metadata line: `{'title': ..., 'id': ...}`
(ytmad.py lines 71-74). -/
structure TrackRecord where
  title : String
  id : String
deriving DecidableEq, Repr

/-- A parsed JSON object line of the metadata probe output.  Only the three
fields the script reads are modelled; each is `none` when the object lacks
the field.  JSON values are abstracted to strings (the script only ever
stores them or tests Python truthiness, which for strings is non-emptiness). -/
structure JsonRec where
  title : Option String
  id : Option String
  playlist_title : Option String
deriving DecidableEq, Repr

/-- One line of the probe stdout after `result.stdout.strip().split('\n')`:
empty (skipped by `if line:`), malformed (the `try` body raises and the bare
`except: continue` skips it), or a parsed JSON object. -/
inductive Line
  | empty
  | malformed
  | record (r : JsonRec)
deriving DecidableEq, Repr

/-- The dict returned by `get_playlist_info` on success (ytmad.py lines 80-84). -/
structure PlaylistInfo where
  title : String
  count : Nat
  videos : List TrackRecord
deriving DecidableEq, Repr

/-- Python truthiness of a str-or-None value: `None` and `''` are falsy. -/
def pyFalsy : Option String → Bool
  | none => true
  | some s => s = ""

/-- Python `x or d` for a str-or-None `x` and a string default `d`
(ytmad.py line 81: `playlist_title or 'Unknown Playlist'`). -/
def pyOrStr (x : Option String) (d : String) : String :=
  match x with
  | none => d
  | some s => if s = "" then d else s

/-- Observable events of a run, in order of occurrence. -/
inductive Event
  | depProbe
  | metaProbe (url : String)
  | prompt (msg : String)
  | mkdirDone (p : List String)
  | downloadCall (url outdir : String)
  | downloadRun (cmd : List String)
  | printed (s : String)
deriving DecidableEq, Repr

/-- Effect of one parsed record on `videos` (ytmad.py lines 70-74):
appended iff the object has both `title` and `id`. -/
def vidStep (vids : List TrackRecord) (r : JsonRec) : List TrackRecord :=
  match r.title, r.id with
  | some t, some i => vids ++ [⟨t, i⟩]
  | _, _ => vids

/-- Effect of one parsed record on the `playlist_title` variable
(ytmad.py lines 75-76): `if not playlist_title and 'playlist_title' in data`
— reassigned whenever the current value is falsy and the record carries the
field. -/
def ptStep (pt : Option String) (r : JsonRec) : Option String :=
  if pyFalsy pt && r.playlist_title.isSome then r.playlist_title else pt

/-- The for-loop of `get_playlist_info` (ytmad.py lines 66-78): accumulates
`videos` and the `playlist_title` variable over the lines; empty lines are
skipped by `if line:` and malformed lines by the bare `except: continue`. -/
def inspectLoop : List Line → List TrackRecord → Option String →
    List TrackRecord × Option String
  | [], vids, pt => (vids, pt)
  | Line.empty :: ls, vids, pt => inspectLoop ls vids pt
  | Line.malformed :: ls, vids, pt => inspectLoop ls vids pt
  | Line.record r :: ls, vids, pt => inspectLoop ls (vidStep vids r) (ptStep pt r)

/-- The argument vector of the metadata probe (ytmad.py line 54). -/
def metaCmd (url : String) : List String :=
  ["yt-dlp", "--dump-json", "--flat-playlist", url]

/-- Rendering of a CalledProcessError, modelling CPython
`str(subprocess.CalledProcessError(code, cmd))` (quotes around the command
elided). -/
def strCPE (cmd : List String) (code : Nat) : String :=
  "Command " ++ String.intercalate " " cmd ++ " returned non-zero exit status "
    ++ toString code ++ "."

/-- `get_playlist_info` (ytmad.py lines 48-88).  `exitCode` is the exit
status of the probe subprocess (`check=True` raises CalledProcessError on a
non-zero status, caught at lines 86-88, returning `None`); `lines` is its
stdout split into lines. -/
def get_playlist_info (url : String) (exitCode : Nat) (lines : List Line) :
    Option PlaylistInfo × List Event :=
  let pre := [Event.printed "📋 Получаю информацию о плейлисте...",
              Event.metaProbe url]
  match exitCode with
  | 0 =>
    let r := inspectLoop lines [] none
    (some { title := pyOrStr r.2 "Unknown Playlist"
            count := r.1.length
            videos := r.1 }, pre)
  | c + 1 =>
    (none,
     pre ++ [Event.printed ("❌ Ошибка при получении информации: "
                            ++ strCPE (metaCmd url) (c + 1))])

/-- Specification-side: the track a single line contributes, if any — a
well-formed object line carrying both `title` and `id`. -/
def lineTrack : Line → Option TrackRecord
  | Line.record r =>
      match r.title, r.id with
      | some t, some i => some ⟨t, i⟩
      | _, _ => none
  | _ => none

/-- Specification-side, the claim as stated: the `playlist_title` value of
the first parsed record (in line order) that carries the field. -/
def firstPT : List Line → Option String
  | [] => none
  | Line.record r :: ls =>
      match r.playlist_title with
      | some v => some v
      | none => firstPT ls
  | _ :: ls => firstPT ls

/-- Specification-side, matching the code: the first truthy (non-empty)
`playlist_title` value among the parsed records, in line order. -/
def firstTruthyPT : List Line → Option String
  | [] => none
  | Line.record r :: ls =>
      match r.playlist_title with
      | some v => if v = "" then firstTruthyPT ls else some v
      | none => firstTruthyPT ls
  | _ :: ls => firstTruthyPT ls

/-- Python list-of-chars startsWith, used to define substring containment. -/
def startsWith : List Char → List Char → Bool
  | [], _ => true
  | _ :: _, [] => false
  | a :: as, b :: bs => a = b && startsWith as bs

/-- Containment of `sub` in a char list, scanning every suffix. -/
def strContainsAux (sub : List Char) : List Char → Bool
  | [] => startsWith sub []
  | c :: cs => startsWith sub (c :: cs) || strContainsAux sub cs

/-- Python `sub in s` on strings: substring containment
(ytmad.py line 151). -/
def strContains (s sub : String) : Bool :=
  strContainsAux sub.data s.data

/-- Python `str.lower()` (ytmad.py line 164); ASCII case mapping, which is
all the comparison with `'y'` depends on. -/
def pyLower (s : String) : String :=
  ⟨s.data.map Char.toLower⟩

/-- The filesystem: the set of existing directories, each as a list of path
components relative to the working directory (which itself always exists). -/
abbrev FS := List (List String)

/-- Splitting a char list at `/` separators, accumulating the current
component in reverse. -/
def pathCompAux : List Char → List Char → List String
  | [], acc => [String.mk acc.reverse]
  | c :: cs, acc =>
      if c = '/' then String.mk acc.reverse :: pathCompAux cs []
      else pathCompAux cs (c :: acc)

/-- Components of a path string, as `pathlib.Path` normalizes it
(empty and `.` components dropped). -/
def pathComponents (s : String) : List String :=
  (pathCompAux s.data []).filter (fun c => !(c = "" || c = "."))

/-- `Path(output_dir).mkdir(exist_ok=True)` (ytmad.py line 94), with real
pathlib semantics: `parents` defaults to False, so an existing directory is
accepted (`exist_ok=True`) but a missing parent raises FileNotFoundError,
modelled as `none`. -/
def mkdir_exist_ok (p : List String) (fs : FS) : Option FS :=
  if p.isEmpty || fs.contains p then some fs
  else if p.dropLast.isEmpty || fs.contains p.dropLast then some (p :: fs)
  else none

/-- Outcome of waiting on the download subprocess: it exited with a status,
or the operator interrupted the wait (KeyboardInterrupt). -/
inductive DlResult
  | exited (code : Nat)
  | interrupted
deriving DecidableEq, Repr

/-- The fixed argument vector of the downloader (ytmad.py lines 100-113). -/
def dlCmd (url output_dir : String) : List String :=
  ["yt-dlp",
   "--extract-audio",
   "--audio-format", "mp3",
   "--audio-quality", "0",
   "--embed-thumbnail",
   "--add-metadata",
   "--output", output_dir ++ "/%(playlist_index)s - %(title)s.%(ext)s",
   "--yes-playlist",
   "--ignore-errors",
   "--no-warnings",
   "--progress",
   url]

/-- `download_album` (ytmad.py lines 90-128).  Returns `some b` for a normal
return of `b`, and `none` when the uncaught FileNotFoundError from `mkdir`
propagates (the `try` at line 115 only guards the subprocess call, and only
catches CalledProcessError and KeyboardInterrupt).  The second component is
the trace; `Event.downloadCall` marks the orchestrator being entered. -/
def download_album (fs : FS) (url : String) (output_dir : String)
    (dl : DlResult) : Option Bool × List Event :=
  let p := pathComponents output_dir
  match mkdir_exist_ok p fs with
  | none => (none, [Event.downloadCall url output_dir])
  | some _ =>
    let pre := [Event.downloadCall url output_dir,
      Event.mkdirDone p,
      Event.printed "\n🎵 Начинаю скачивание альбома...",
      Event.printed ("📁 Папка сохранения: " ++ output_dir ++ "/\n"),
      Event.downloadRun (dlCmd url output_dir)]
    match dl with
    | DlResult.exited 0 =>
      (some true, pre ++
        [Event.printed "\n✅ Скачивание завершено!",
         Event.printed ("📂 Файлы сохранены в папке: " ++ output_dir ++ "/")])
    | DlResult.exited (c + 1) =>
      (some false, pre ++
        [Event.printed ("\n❌ Ошибка при скачивании: "
                        ++ strCPE (dlCmd url output_dir) (c + 1))])
    | DlResult.interrupted =>
      (some false, pre ++
        [Event.printed "\n\n⚠️  Скачивание прервано пользователем"])

/-- Outcome of the `yt-dlp --version` probe: the binary is absent from the
path (FileNotFoundError) or it ran and exited with a status. -/
inductive DepResult
  | notFound
  | exited (code : Nat)
deriving DecidableEq, Repr

/-- Install instructions printed when the dependency is unavailable
(ytmad.py lines 28-32). -/
def depInstallMsgs : List Event :=
  [Event.printed "❌ yt-dlp не установлен!",
   Event.printed "\nУстановите его командой:",
   Event.printed "  pip install yt-dlp",
   Event.printed "\nИли:",
   Event.printed "  pip3 install yt-dlp"]

/-- `check_dependencies` (ytmad.py lines 20-33): `check=True` raises
CalledProcessError on a non-zero exit, and an absent binary raises
FileNotFoundError; both are caught by the same `except` clause. -/
def check_dependencies (d : DepResult) : Bool × List Event :=
  match d with
  | DepResult.exited 0 => (true, [Event.depProbe])
  | DepResult.exited (_ + 1) => (false, Event.depProbe :: depInstallMsgs)
  | DepResult.notFound => (false, Event.depProbe :: depInstallMsgs)

/-- Ambient inputs that determine one run of the script: the dependency
probe outcome, `sys.argv`, the metadata probe outcome (exit status and
stdout lines), the operator response at the prompt, the filesystem, and the
download subprocess outcome. -/
structure RunInput where
  dep : DepResult
  argv : List String
  probeExit : Nat
  probeLines : List Line
  response : String
  fs : FS
  dl : DlResult

/-- How a run terminates: `sys.exit`/fallthrough with a status, or an
uncaught exception (traceback). -/
inductive MainResult
  | exit (code : Nat)
  | crashed
deriving DecidableEq, Repr

/-- The process exit status of a terminated run: CPython exits with status 1
on an uncaught exception. -/
def exitStatus : MainResult → Nat
  | MainResult.exit c => c
  | MainResult.crashed => 1

/-- The banner prints at the top of `main` (ytmad.py lines 131-133). -/
def bannerEvents : List Event :=
  [Event.printed (String.mk (List.replicate 60 '=')),
   Event.printed "🎵 YouTube Album Downloader",
   Event.printed (String.mk (List.replicate 60 '='))]

/-- Usage text printed when no URL argument is given (ytmad.py lines
141-145); the example-URL line is rendered without its surrounding quote
characters. -/
def usageEvents (argv : List String) : List Event :=
  [Event.printed "\n❌ Не указана ссылка на плейлист!",
   Event.printed "\nИспользование:",
   Event.printed ("  python " ++ (argv.get? 0).getD "" ++ " <URL_плейлиста>"),
   Event.printed "\nПример:",
   Event.printed ("  python " ++ (argv.get? 0).getD ""
                  ++ " https://www.youtube.com/playlist?list=...")]

/-- Tail of `main` from the `download_album` call on (ytmad.py lines
175-181): success prints the closing message and falls through (exit 0),
failure prints the warning and exits 1, and an exception propagating out of
`download_album` crashes the run. -/
def mainAfterConfirm (fs : FS) (url output_dir : String) (dl : DlResult) :
    MainResult × List Event :=
  match download_album fs url output_dir dl with
  | (none, ev) => (MainResult.crashed, ev)
  | (some true, ev) =>
      (MainResult.exit 0, ev ++ [Event.printed "\n🎉 Готово! Приятного прослушивания!"])
  | (some false, ev) =>
      (MainResult.exit 1, ev ++ [Event.printed "\n⚠️  Скачивание завершено с ошибками"])

/-- `main` (ytmad.py lines 130-181): banner, dependency check, argument
check, URL domain check, playlist inspection, confirmation when inspection
succeeded, then download and report.  The output directory defaults to
`downloads` when `sys.argv` has no third element (lines 169-172). -/
def main (inp : RunInput) : MainResult × List Event :=
  let dep := check_dependencies inp.dep
  if !dep.1 then
    (MainResult.exit 1, bannerEvents ++ dep.2)
  else if inp.argv.length < 2 then
    (MainResult.exit 1, bannerEvents ++ dep.2 ++ usageEvents inp.argv)
  else
    let url := (inp.argv.get? 1).getD ""
    if !(strContains url "youtube.com" || strContains url "youtu.be") then
      (MainResult.exit 1, bannerEvents ++ dep.2 ++
        [Event.printed "❌ Неверная ссылка! Укажите ссылку на YouTube плейлист."])
    else
      let gi := get_playlist_info url inp.probeExit inp.probeLines
      let output_dir := if inp.argv.length ≥ 3 then (inp.argv.get? 2).getD "" else "downloads"
      match gi.1 with
      | some i =>
        let confirmEv :=
          [Event.printed ("\n📋 Плейлист: " ++ i.title),
           Event.printed ("🎵 Количество треков: " ++ toString i.count),
           Event.prompt ("\n⚠️  Начать скачивание " ++ toString i.count
                         ++ " треков? (y/n): ")]
        if pyLower inp.response ≠ "y" then
          (MainResult.exit 0, bannerEvents ++ dep.2 ++ gi.2 ++ confirmEv ++
            [Event.printed "❌ Скачивание отменено"])
        else
          let r := mainAfterConfirm inp.fs url output_dir inp.dl
          (r.1, bannerEvents ++ dep.2 ++ gi.2 ++ confirmEv ++ r.2)
      | none =>
        let r := mainAfterConfirm inp.fs url output_dir inp.dl
        (r.1, bannerEvents ++ dep.2 ++ gi.2 ++ r.2)

/-- Event classifier: is this an invocation of the metadata probe? -/
def isMetaProbe : Event → Bool
  | Event.metaProbe _ => true
  | _ => false

/-- Event classifier: is this an invocation of the downloader subprocess? -/
def isDownloadRun : Event → Bool
  | Event.downloadRun _ => true
  | _ => false

/-- Event classifier: is this an entry into the download orchestrator? -/
def isDownloadCall : Event → Bool
  | Event.downloadCall _ _ => true
  | _ => false

/-- Event classifier: is this the confirmation prompt? -/
def isPrompt : Event → Bool
  | Event.prompt _ => true
  | _ => false

/-- Whether the trace contains a metadata-probe invocation. -/
def probeInvoked (tr : List Event) : Bool := tr.any isMetaProbe

/-- Whether the trace contains a downloader-subprocess invocation. -/
def downloaderInvoked (tr : List Event) : Bool := tr.any isDownloadRun

/-- Whether the trace contains an entry into the download orchestrator. -/
def orchestratorEntered (tr : List Event) : Bool := tr.any isDownloadCall

/-- Whether the trace contains the confirmation prompt. -/
def promptShown (tr : List Event) : Bool := tr.any isPrompt

/-- Whether a download-subprocess outcome counts as success: exited 0. -/
def dlSuccessB : DlResult → Bool
  | DlResult.exited 0 => true
  | _ => false

/-- The status line `download_album` prints for each download outcome
(ytmad.py lines 119, 124, 127). -/
def dlStatusLine (url output_dir : String) : DlResult → String
  | DlResult.exited 0 => "\n✅ Скачивание завершено!"
  | DlResult.exited (c + 1) =>
      "\n❌ Ошибка при скачивании: " ++ strCPE (dlCmd url output_dir) (c + 1)
  | DlResult.interrupted => "\n\n⚠️  Скачивание прервано пользователем"

/-- The URL argument of a run: `sys.argv[1]`. -/
def urlOf (argv : List String) : String := (argv.get? 1).getD ""

/-- The output directory of a run (ytmad.py lines 169-172): `sys.argv[2]`
when present, else `downloads`. -/
def outputDirOf (argv : List String) : String :=
  if argv.length ≥ 3 then (argv.get? 2).getD "" else "downloads"

/-- The URL domain guard of `main` (ytmad.py line 151). -/
def urlValidB (url : String) : Bool :=
  strContains url "youtube.com" || strContains url "youtu.be"

/-- Whether the three upfront checks (dependency, argument count, URL
domain) all pass in a run. -/
def checksPassB (inp : RunInput) : Bool :=
  (check_dependencies inp.dep).1 && decide (2 ≤ inp.argv.length)
    && urlValidB (urlOf inp.argv)

/-- Whether a run ends in user cancellation: the checks pass, inspection
succeeds, and the response is not a case-insensitive `y`. -/
def cancelledB (inp : RunInput) : Bool :=
  checksPassB inp && (inp.probeExit == 0) && !(pyLower inp.response == "y")

/-- Whether a run reaches the download step: the checks pass and either
inspection failed (confirmation skipped) or the operator affirmed. -/
def proceedsB (inp : RunInput) : Bool :=
  checksPassB inp && (!(inp.probeExit == 0) || (pyLower inp.response == "y"))

/-- Whether creating the output directory of a run succeeds. -/
def mkdirOkB (inp : RunInput) : Bool :=
  (mkdir_exist_ok (pathComponents (outputDirOf inp.argv)) inp.fs).isSome

/-- Whether a run ends in download success. -/
def dlSucceededB (inp : RunInput) : Bool :=
  proceedsB inp && mkdirOkB inp && dlSuccessB inp.dl

/-- Whether a run ends in download failure (non-zero exit or interruption
of the invoked downloader). -/
def dlFailedB (inp : RunInput) : Bool :=
  proceedsB inp && mkdirOkB inp && !dlSuccessB inp.dl

/-- Whether a run crashes creating the output directory (missing parent,
uncaught FileNotFoundError). -/
def mkdirCrashB (inp : RunInput) : Bool :=
  proceedsB inp && !mkdirOkB inp

/-- Whether a run fails its dependency check. -/
def missingDepB (inp : RunInput) : Bool := !(check_dependencies inp.dep).1

/-- Whether a run fails for lack of a URL argument. -/
def missingArgB (inp : RunInput) : Bool :=
  (check_dependencies inp.dep).1 && decide (inp.argv.length < 2)

/-- Whether a run fails the URL domain guard. -/
def badUrlB (inp : RunInput) : Bool :=
  (check_dependencies inp.dep).1 && decide (2 ≤ inp.argv.length)
    && !urlValidB (urlOf inp.argv)

/-- Probe stream whose single parsed record carries an empty
`playlist_title` (realizable as the JSON line `{"playlist_title": ""}`). -/
def c2Lines : List Line := [Line.record ⟨none, none, some ""⟩]

/-- A run with the dependency available, a valid playlist URL, a failed
metadata probe (so the confirmation is skipped), and an output directory
`a/b` whose parent `a` does not exist. -/
def c8Input : RunInput :=
  { dep := DepResult.exited 0
    argv := ["prog", "youtube.com/playlist?list=x", "a/b"]
    probeExit := 1
    probeLines := []
    response := ""
    fs := []
    dl := DlResult.exited 0 }

theorem inspectLoop_fst (ls : List Line) :
    ∀ vids pt, (inspectLoop ls vids pt).1 = vids ++ ls.filterMap lineTrack := by
  induction ls with
  | nil => intro vids pt; simp [inspectLoop]
  | cons l ls ih =>
    intro vids pt
    cases l with
    | empty => simp [inspectLoop, lineTrack, ih]
    | malformed => simp [inspectLoop, lineTrack, ih]
    | record r =>
      rcases r with ⟨t, i, p⟩
      cases t <;> cases i <;>
        simp [inspectLoop, lineTrack, vidStep, ih]

theorem inspectLoop_snd_truthy (ls : List Line) :
    ∀ vids pt, pyFalsy pt = false → (inspectLoop ls vids pt).2 = pt := by
  induction ls with
  | nil => intro vids pt _; simp [inspectLoop]
  | cons l ls ih =>
    intro vids pt h
    cases l with
    | empty => simpa [inspectLoop] using ih _ _ h
    | malformed => simpa [inspectLoop] using ih _ _ h
    | record r =>
      have hstep : ptStep pt r = pt := by simp [ptStep, h]
      simp only [inspectLoop, hstep]
      exact ih _ _ h

theorem inspectLoop_snd_falsy (ls : List Line) :
    ∀ vids pt d, pyFalsy pt = true →
      pyOrStr (inspectLoop ls vids pt).2 d = (firstTruthyPT ls).getD d := by
  induction ls with
  | nil =>
    intro vids pt d h
    cases pt with
    | none => simp [inspectLoop, pyOrStr, firstTruthyPT]
    | some s =>
      simp only [pyFalsy, decide_eq_true_eq] at h
      simp [inspectLoop, pyOrStr, firstTruthyPT, h]
  | cons l ls ih =>
    intro vids pt d h
    cases l with
    | empty => simpa [inspectLoop, firstTruthyPT] using ih _ _ _ h
    | malformed => simpa [inspectLoop, firstTruthyPT] using ih _ _ _ h
    | record r =>
      cases hp : r.playlist_title with
      | none =>
        have hstep : ptStep pt r = pt := by simp [ptStep, hp]
        simp only [inspectLoop, hstep, firstTruthyPT, hp]
        exact ih _ _ _ h
      | some v =>
        have hstep : ptStep pt r = some v := by simp [ptStep, h, hp]
        simp only [inspectLoop, hstep, firstTruthyPT, hp]
        by_cases hv : v = ""
        · subst hv
          simp only [if_pos rfl]
          exact ih _ _ _ (by simp [pyFalsy])
        · rw [if_neg hv, inspectLoop_snd_truthy ls _ _ (by simp [pyFalsy, hv])]
          simp [pyOrStr, hv]

/-- C1: for every metadata-probe stdout stream (any mix of parsed, malformed
and empty lines), `get_playlist_info` returns a result (never aborts or
raises on a malformed line) whose track list is exactly one TrackRecord per
parsed line carrying both a `title` and an `id` field, in the original line
order, with nothing for lines missing either field. -/
theorem c1_tracks_exact (url : String) (lines : List Line) :
    ∃ info, (get_playlist_info url 0 lines).1 = some info ∧
      info.videos = lines.filterMap lineTrack := by
  refine ⟨_, rfl, ?_⟩
  simpa using inspectLoop_fst lines [] none

/-- C2 counterexample: on the stream whose single parsed record carries the
`playlist_title` value `""`, the first record carrying the field has value
`""`, yet the returned title is the sentinel `"Unknown Playlist"`, not `""`
— refuting the claim that the title equals the playlist-title value of the
first record carrying the field. -/
theorem c2_counterexample :
    firstPT c2Lines = some "" ∧
    (get_playlist_info "u" 0 c2Lines).1 =
      some { title := "Unknown Playlist", count := 0, videos := [] } ∧
    ("Unknown Playlist" : String) ≠ "" := by
  refine ⟨rfl, rfl, by decide⟩

/-- C2 amended: the returned playlist title equals the first truthy
(non-empty) `playlist_title` value among the parsed records in line order;
if no parsed record carries a non-empty `playlist_title`, it is the
sentinel `"Unknown Playlist"`. -/
theorem c2_title_first_truthy (url : String) (lines : List Line) :
    ∃ info, (get_playlist_info url 0 lines).1 = some info ∧
      info.title = (firstTruthyPT lines).getD "Unknown Playlist" := by
  refine ⟨_, rfl, ?_⟩
  simpa using inspectLoop_snd_falsy lines [] none "Unknown Playlist" rfl

/-- C10: whenever `get_playlist_info` returns a PlaylistInfo, its `count`
field equals the length of its track list. -/
theorem c10_count_eq_length (url : String) (e : Nat) (lines : List Line)
    (info : PlaylistInfo) (h : (get_playlist_info url e lines).1 = some info) :
    info.count = info.videos.length := by
  cases e with
  | zero =>
    simp only [get_playlist_info] at h
    cases h
    rfl
  | succ c =>
    simp [get_playlist_info] at h

/-- C10 witness: the theorem applied to the empty stream. -/
theorem c10_witness :
    (PlaylistInfo.mk "Unknown Playlist" 0 []).count =
      (PlaylistInfo.mk "Unknown Playlist" 0 []).videos.length :=
  c10_count_eq_length "u" 0 [] (PlaylistInfo.mk "Unknown Playlist" 0 []) rfl

/-- C3 counterexample: invoking `download_album` with output directory
`a/b` on a filesystem where the parent `a` does not exist raises (result
`none`) instead of creating the missing parents, and the downloader is
never invoked — refuting the claim that the directory is always created
including missing parent directories. -/
theorem c3_counterexample :
    (download_album [] "u" "a/b" (DlResult.exited 0)).1 = none ∧
    downloaderInvoked (download_album [] "u" "a/b" (DlResult.exited 0)).2 = false := by
  refine ⟨rfl, rfl⟩

/-- C3 amended: when the target directory or its parent already exists (in
particular `mkdir` succeeds, and an already-existing directory is no error),
the directory is created/accepted before the downloader subprocess is
invoked; missing parent directories are not created — when the parent is
absent, directory creation raises and the downloader is not invoked. -/
theorem c3_mkdir_before_download (fs : FS) (url dir : String) (dl : DlResult) :
    ((mkdir_exist_ok (pathComponents dir) fs).isSome = true →
      (download_album fs url dir dl).1.isSome = true ∧
      ∃ post, (download_album fs url dir dl).2 =
        [Event.downloadCall url dir,
         Event.mkdirDone (pathComponents dir),
         Event.printed "\n🎵 Начинаю скачивание альбома...",
         Event.printed ("📁 Папка сохранения: " ++ dir ++ "/\n"),
         Event.downloadRun (dlCmd url dir)] ++ post) ∧
    (mkdir_exist_ok (pathComponents dir) fs = none →
      (download_album fs url dir dl).1 = none ∧
      downloaderInvoked (download_album fs url dir dl).2 = false) := by
  constructor
  · intro h
    cases hm : mkdir_exist_ok (pathComponents dir) fs with
    | none => simp [hm] at h
    | some fs' =>
      cases dl with
      | exited c =>
        cases c with
        | zero =>
          exact ⟨by simp [download_album, hm],
            [Event.printed "\n✅ Скачивание завершено!",
             Event.printed ("📂 Файлы сохранены в папке: " ++ dir ++ "/")],
            by simp [download_album, hm]⟩
        | succ c =>
          exact ⟨by simp [download_album, hm],
            [Event.printed ("\n❌ Ошибка при скачивании: "
                            ++ strCPE (dlCmd url dir) (c + 1))],
            by simp [download_album, hm]⟩
      | interrupted =>
        exact ⟨by simp [download_album, hm],
          [Event.printed "\n\n⚠️  Скачивание прервано пользователем"],
          by simp [download_album, hm]⟩
  · intro h
    simp [download_album, h, downloaderInvoked, isDownloadRun]

/-- C3 witness: on the empty filesystem with the default output directory
`downloads` (whose parent is the working directory), the directory is made
and the downloader runs after it. -/
theorem c3_witness :
    (download_album [] "u" "downloads" (DlResult.exited 0)).1.isSome = true ∧
    ∃ post, (download_album [] "u" "downloads" (DlResult.exited 0)).2 =
      [Event.downloadCall "u" "downloads",
       Event.mkdirDone (pathComponents "downloads"),
       Event.printed "\n🎵 Начинаю скачивание альбома...",
       Event.printed ("📁 Папка сохранения: " ++ "downloads" ++ "/\n"),
       Event.downloadRun (dlCmd "u" "downloads")] ++ post :=
  (c3_mkdir_before_download [] "u" "downloads" (DlResult.exited 0)).1 (by decide)

/-- C7: whenever the output directory can be made, `download_album` returns
(no exception escapes) `true` exactly when the downloader exited 0, invokes
the downloader exactly once (no retry), and prints the human-readable status
line matching the outcome. -/
theorem c7_outcome_boolean (fs : FS) (url dir : String) (dl : DlResult)
    (h : (mkdir_exist_ok (pathComponents dir) fs).isSome = true) :
    (download_album fs url dir dl).1 = some (dlSuccessB dl) ∧
    (download_album fs url dir dl).2.countP isDownloadRun = 1 ∧
    Event.printed (dlStatusLine url dir dl) ∈ (download_album fs url dir dl).2 := by
  cases hm : mkdir_exist_ok (pathComponents dir) fs with
  | none => simp [hm] at h
  | some fs' =>
    cases dl with
    | exited c =>
      cases c with
      | zero =>
        refine ⟨by simp [download_album, hm, dlSuccessB], ?_, ?_⟩ <;>
          simp [download_album, hm, dlStatusLine, isDownloadRun, List.countP_append,
            List.countP_cons]
      | succ c =>
        refine ⟨by simp [download_album, hm, dlSuccessB], ?_, ?_⟩ <;>
          simp [download_album, hm, dlStatusLine, isDownloadRun, List.countP_append,
            List.countP_cons]
    | interrupted =>
      refine ⟨by simp [download_album, hm, dlSuccessB], ?_, ?_⟩ <;>
        simp [download_album, hm, dlStatusLine, isDownloadRun, List.countP_append,
          List.countP_cons]

/-- C7 witness: an interrupted download in the default directory returns
`false`, with one downloader invocation and the interruption status line. -/
theorem c7_witness :
    (download_album [] "u" "downloads" DlResult.interrupted).1 =
      some (dlSuccessB DlResult.interrupted) ∧
    (download_album [] "u" "downloads" DlResult.interrupted).2.countP isDownloadRun = 1 ∧
    Event.printed (dlStatusLine "u" "downloads" DlResult.interrupted) ∈
      (download_album [] "u" "downloads" DlResult.interrupted).2 :=
  c7_outcome_boolean [] "u" "downloads" DlResult.interrupted (by decide)

/-- C4: in a run where the dependency check and URL check pass and
inspection succeeded (probe exit 0), any operator response other than a
case-insensitive `y` makes the program print the cancellation message and
exit with status 0, with the downloader never invoked and the orchestrator
never entered. -/
theorem c4_decline_cancels (a0 url : String) (rest : List String)
    (lines : List Line) (resp : String) (fs : FS) (dl : DlResult)
    (hurl : (strContains url "youtube.com" || strContains url "youtu.be") = true)
    (hresp : pyLower resp ≠ "y") :
    (main ⟨DepResult.exited 0, a0 :: url :: rest, 0, lines, resp, fs, dl⟩).1 =
      MainResult.exit 0 ∧
    Event.printed "❌ Скачивание отменено" ∈
      (main ⟨DepResult.exited 0, a0 :: url :: rest, 0, lines, resp, fs, dl⟩).2 ∧
    downloaderInvoked
      (main ⟨DepResult.exited 0, a0 :: url :: rest, 0, lines, resp, fs, dl⟩).2 = false ∧
    orchestratorEntered
      (main ⟨DepResult.exited 0, a0 :: url :: rest, 0, lines, resp, fs, dl⟩).2 = false := by
  have hm : main ⟨DepResult.exited 0, a0 :: url :: rest, 0, lines, resp, fs, dl⟩ =
      (MainResult.exit 0,
        bannerEvents ++ [Event.depProbe] ++
          [Event.printed "📋 Получаю информацию о плейлисте...", Event.metaProbe url] ++
          [Event.printed ("\n📋 Плейлист: " ++
              pyOrStr (inspectLoop lines [] none).2 "Unknown Playlist"),
           Event.printed ("🎵 Количество треков: "
              ++ toString (inspectLoop lines [] none).1.length),
           Event.prompt ("\n⚠️  Начать скачивание "
              ++ toString (inspectLoop lines [] none).1.length ++ " треков? (y/n): ")] ++
          [Event.printed "❌ Скачивание отменено"]) := by
    simp [main, check_dependencies, get_playlist_info, hurl, hresp]
  rw [hm]
  refine ⟨rfl, by simp, ?_, ?_⟩ <;>
    simp [downloaderInvoked, orchestratorEntered, isDownloadRun, isDownloadCall,
      bannerEvents, List.any_append]

/-- C4 witness: response `n` on a one-track playlist cancels with exit 0. -/
theorem c4_witness :
    (main ⟨DepResult.exited 0, ["prog", "https://youtu.be/x", "out"], 0,
        [Line.record ⟨some "t", some "i", none⟩], "n", [], DlResult.exited 0⟩).1 =
      MainResult.exit 0 ∧
    Event.printed "❌ Скачивание отменено" ∈
      (main ⟨DepResult.exited 0, ["prog", "https://youtu.be/x", "out"], 0,
        [Line.record ⟨some "t", some "i", none⟩], "n", [], DlResult.exited 0⟩).2 ∧
    downloaderInvoked
      (main ⟨DepResult.exited 0, ["prog", "https://youtu.be/x", "out"], 0,
        [Line.record ⟨some "t", some "i", none⟩], "n", [], DlResult.exited 0⟩).2 = false ∧
    orchestratorEntered
      (main ⟨DepResult.exited 0, ["prog", "https://youtu.be/x", "out"], 0,
        [Line.record ⟨some "t", some "i", none⟩], "n", [], DlResult.exited 0⟩).2 = false :=
  c4_decline_cancels "prog" "https://youtu.be/x" ["out"]
    [Line.record ⟨some "t", some "i", none⟩] "n" [] (DlResult.exited 0)
    (by decide) (by decide)

/-- C5: in any run whose URL argument contains neither `youtube.com` nor
`youtu.be`, the program exits with status 1 and neither the metadata probe
nor the downloader is ever invoked. -/
theorem c5_invalid_url (d : DepResult) (a0 url : String) (rest : List String)
    (pe : Nat) (lines : List Line) (resp : String) (fs : FS) (dl : DlResult)
    (h1 : strContains url "youtube.com" = false)
    (h2 : strContains url "youtu.be" = false) :
    (main ⟨d, a0 :: url :: rest, pe, lines, resp, fs, dl⟩).1 = MainResult.exit 1 ∧
    probeInvoked (main ⟨d, a0 :: url :: rest, pe, lines, resp, fs, dl⟩).2 = false ∧
    downloaderInvoked (main ⟨d, a0 :: url :: rest, pe, lines, resp, fs, dl⟩).2 = false ∧
    orchestratorEntered (main ⟨d, a0 :: url :: rest, pe, lines, resp, fs, dl⟩).2 = false := by
  cases d with
  | notFound =>
    have hm : main ⟨DepResult.notFound, a0 :: url :: rest, pe, lines, resp, fs, dl⟩ =
        (MainResult.exit 1, bannerEvents ++ (Event.depProbe :: depInstallMsgs)) := by
      simp [main, check_dependencies]
    rw [hm]
    refine ⟨rfl, ?_, ?_, ?_⟩ <;>
      simp [probeInvoked, downloaderInvoked, orchestratorEntered, isMetaProbe,
        isDownloadRun, isDownloadCall, bannerEvents, depInstallMsgs, List.any_append]
  | exited c =>
    cases c with
    | zero =>
      have hm : main ⟨DepResult.exited 0, a0 :: url :: rest, pe, lines, resp, fs, dl⟩ =
          (MainResult.exit 1, bannerEvents ++ [Event.depProbe] ++
            [Event.printed "❌ Неверная ссылка! Укажите ссылку на YouTube плейлист."]) := by
        simp [main, check_dependencies, h1, h2]
      rw [hm]
      refine ⟨rfl, ?_, ?_, ?_⟩ <;>
        simp [probeInvoked, downloaderInvoked, orchestratorEntered, isMetaProbe,
          isDownloadRun, isDownloadCall, bannerEvents, List.any_append]
    | succ c =>
      have hm : main ⟨DepResult.exited (c + 1), a0 :: url :: rest, pe, lines, resp, fs, dl⟩ =
          (MainResult.exit 1, bannerEvents ++ (Event.depProbe :: depInstallMsgs)) := by
        simp [main, check_dependencies]
      rw [hm]
      refine ⟨rfl, ?_, ?_, ?_⟩ <;>
        simp [probeInvoked, downloaderInvoked, orchestratorEntered, isMetaProbe,
          isDownloadRun, isDownloadCall, bannerEvents, depInstallMsgs, List.any_append]

/-- C5 witness: a non-YouTube URL exits 1 with no probe and no download. -/
theorem c5_witness :
    (main ⟨DepResult.exited 0, ["prog", "http://example.com/pl"], 0, [], "y",
        [], DlResult.exited 0⟩).1 = MainResult.exit 1 ∧
    probeInvoked (main ⟨DepResult.exited 0, ["prog", "http://example.com/pl"], 0, [], "y",
        [], DlResult.exited 0⟩).2 = false ∧
    downloaderInvoked (main ⟨DepResult.exited 0, ["prog", "http://example.com/pl"], 0, [], "y",
        [], DlResult.exited 0⟩).2 = false ∧
    orchestratorEntered (main ⟨DepResult.exited 0, ["prog", "http://example.com/pl"], 0, [], "y",
        [], DlResult.exited 0⟩).2 = false :=
  c5_invalid_url (DepResult.exited 0) "prog" "http://example.com/pl" [] 0 [] "y"
    [] (DlResult.exited 0) (by decide) (by decide)

/-- C6: in a run that passes the upfront checks but whose metadata probe
exits non-zero, `get_playlist_info` returns the unavailable sentinel `none`
instead of raising, the confirmation prompt is never shown, and execution
proceeds directly to the download step (the orchestrator is entered, and
whenever the output directory can be made the downloader subprocess is
invoked). -/
theorem c6_probe_failure_soft (a0 url : String) (rest : List String) (c : Nat)
    (lines : List Line) (resp : String) (fs : FS) (dl : DlResult)
    (hurl : (strContains url "youtube.com" || strContains url "youtu.be") = true) :
    (get_playlist_info url (c + 1) lines).1 = none ∧
    promptShown
      (main ⟨DepResult.exited 0, a0 :: url :: rest, c + 1, lines, resp, fs, dl⟩).2 = false ∧
    orchestratorEntered
      (main ⟨DepResult.exited 0, a0 :: url :: rest, c + 1, lines, resp, fs, dl⟩).2 = true ∧
    ((mkdir_exist_ok (pathComponents (outputDirOf (a0 :: url :: rest))) fs).isSome = true →
      downloaderInvoked
        (main ⟨DepResult.exited 0, a0 :: url :: rest, c + 1, lines, resp, fs, dl⟩).2 = true) := by
  have hm : main ⟨DepResult.exited 0, a0 :: url :: rest, c + 1, lines, resp, fs, dl⟩ =
      ((mainAfterConfirm fs url (outputDirOf (a0 :: url :: rest)) dl).1,
        bannerEvents ++ [Event.depProbe] ++
        ([Event.printed "📋 Получаю информацию о плейлисте...", Event.metaProbe url] ++
         [Event.printed ("❌ Ошибка при получении информации: "
                         ++ strCPE (metaCmd url) (c + 1))]) ++
        (mainAfterConfirm fs url (outputDirOf (a0 :: url :: rest)) dl).2) := by
    simp [main, check_dependencies, get_playlist_info, outputDirOf, hurl]
  refine ⟨by simp [get_playlist_info], ?_, ?_, ?_⟩ <;> rw [hm]
  · cases hk : mkdir_exist_ok (pathComponents (outputDirOf (a0 :: url :: rest))) fs with
    | none =>
      simp [mainAfterConfirm, download_album, hk, promptShown, isPrompt, bannerEvents,
        List.any_append]
    | some fs' =>
      cases dl with
      | exited dc =>
        cases dc with
        | zero =>
          simp [mainAfterConfirm, download_album, hk, promptShown, isPrompt, bannerEvents,
            List.any_append]
        | succ dc =>
          simp [mainAfterConfirm, download_album, hk, promptShown, isPrompt, bannerEvents,
            List.any_append]
      | interrupted =>
        simp [mainAfterConfirm, download_album, hk, promptShown, isPrompt, bannerEvents,
          List.any_append]
  · cases hk : mkdir_exist_ok (pathComponents (outputDirOf (a0 :: url :: rest))) fs with
    | none =>
      simp [mainAfterConfirm, download_album, hk, orchestratorEntered, isDownloadCall,
        List.any_append]
    | some fs' =>
      cases dl with
      | exited dc =>
        cases dc with
        | zero =>
          simp [mainAfterConfirm, download_album, hk, orchestratorEntered, isDownloadCall,
            List.any_append]
        | succ dc =>
          simp [mainAfterConfirm, download_album, hk, orchestratorEntered, isDownloadCall,
            List.any_append]
      | interrupted =>
        simp [mainAfterConfirm, download_album, hk, orchestratorEntered, isDownloadCall,
          List.any_append]
  · intro hk'
    cases hk : mkdir_exist_ok (pathComponents (outputDirOf (a0 :: url :: rest))) fs with
    | none => simp [hk] at hk'
    | some fs' =>
      cases dl with
      | exited dc =>
        cases dc with
        | zero =>
          simp [mainAfterConfirm, download_album, hk, downloaderInvoked, isDownloadRun,
            List.any_append]
        | succ dc =>
          simp [mainAfterConfirm, download_album, hk, downloaderInvoked, isDownloadRun,
            List.any_append]
      | interrupted =>
        simp [mainAfterConfirm, download_album, hk, downloaderInvoked, isDownloadRun,
          List.any_append]

/-- C6 witness: a failed probe on a valid URL skips the prompt and runs the
downloader in the default directory. -/
theorem c6_witness :
    (get_playlist_info "https://www.youtube.com/playlist?list=x" 1 []).1 = none ∧
    promptShown
      (main ⟨DepResult.exited 0, ["prog", "https://www.youtube.com/playlist?list=x"], 1,
        [], "", [], DlResult.exited 0⟩).2 = false ∧
    orchestratorEntered
      (main ⟨DepResult.exited 0, ["prog", "https://www.youtube.com/playlist?list=x"], 1,
        [], "", [], DlResult.exited 0⟩).2 = true ∧
    ((mkdir_exist_ok (pathComponents
        (outputDirOf ["prog", "https://www.youtube.com/playlist?list=x"])) []).isSome = true →
      downloaderInvoked
        (main ⟨DepResult.exited 0, ["prog", "https://www.youtube.com/playlist?list=x"], 1,
          [], "", [], DlResult.exited 0⟩).2 = true) :=
  c6_probe_failure_soft "prog" "https://www.youtube.com/playlist?list=x" [] 0 [] "" []
    (DlResult.exited 0) (by decide)

/-- C9: whenever the dependency probe fails — the binary is absent or exits
non-zero, both collapsing to the same `(false, install instructions)`
outcome of `check_dependencies` — the program prints the install
instructions and exits with status 1 having done nothing else: no usage
check output, no URL check output, no metadata probe, no prompt, and no
download. -/
theorem c9_dependency_gate (d : DepResult) (argv : List String) (pe : Nat)
    (lines : List Line) (resp : String) (fs : FS) (dl : DlResult)
    (h : (check_dependencies d).1 = false) :
    check_dependencies d = (false, Event.depProbe :: depInstallMsgs) ∧
    main ⟨d, argv, pe, lines, resp, fs, dl⟩ =
      (MainResult.exit 1, bannerEvents ++ (Event.depProbe :: depInstallMsgs)) ∧
    Event.printed "  pip install yt-dlp" ∈ (main ⟨d, argv, pe, lines, resp, fs, dl⟩).2 ∧
    probeInvoked (main ⟨d, argv, pe, lines, resp, fs, dl⟩).2 = false ∧
    promptShown (main ⟨d, argv, pe, lines, resp, fs, dl⟩).2 = false ∧
    downloaderInvoked (main ⟨d, argv, pe, lines, resp, fs, dl⟩).2 = false ∧
    orchestratorEntered (main ⟨d, argv, pe, lines, resp, fs, dl⟩).2 = false := by
  have hc : check_dependencies d = (false, Event.depProbe :: depInstallMsgs) := by
    cases d with
    | notFound => rfl
    | exited c =>
      cases c with
      | zero => simp [check_dependencies] at h
      | succ c => rfl
  have hm : main ⟨d, argv, pe, lines, resp, fs, dl⟩ =
      (MainResult.exit 1, bannerEvents ++ (Event.depProbe :: depInstallMsgs)) := by
    simp [main, hc]
  rw [hm]
  refine ⟨hc, rfl, by simp [depInstallMsgs], ?_, ?_, ?_, ?_⟩ <;>
    simp [probeInvoked, promptShown, downloaderInvoked, orchestratorEntered,
      isMetaProbe, isPrompt, isDownloadRun, isDownloadCall, bannerEvents,
      depInstallMsgs, List.any_append]

/-- C9 witness: an absent binary exits 1 immediately after the install
instructions. -/
theorem c9_witness :
    check_dependencies DepResult.notFound = (false, Event.depProbe :: depInstallMsgs) ∧
    main ⟨DepResult.notFound, ["prog", "https://youtu.be/x"], 0, [], "y", [],
        DlResult.exited 0⟩ =
      (MainResult.exit 1, bannerEvents ++ (Event.depProbe :: depInstallMsgs)) ∧
    Event.printed "  pip install yt-dlp" ∈
      (main ⟨DepResult.notFound, ["prog", "https://youtu.be/x"], 0, [], "y", [],
        DlResult.exited 0⟩).2 ∧
    probeInvoked (main ⟨DepResult.notFound, ["prog", "https://youtu.be/x"], 0, [], "y", [],
        DlResult.exited 0⟩).2 = false ∧
    promptShown (main ⟨DepResult.notFound, ["prog", "https://youtu.be/x"], 0, [], "y", [],
        DlResult.exited 0⟩).2 = false ∧
    downloaderInvoked (main ⟨DepResult.notFound, ["prog", "https://youtu.be/x"], 0, [], "y", [],
        DlResult.exited 0⟩).2 = false ∧
    orchestratorEntered (main ⟨DepResult.notFound, ["prog", "https://youtu.be/x"], 0, [], "y", [],
        DlResult.exited 0⟩).2 = false :=
  c9_dependency_gate DepResult.notFound ["prog", "https://youtu.be/x"] 0 [] "y" []
    (DlResult.exited 0) rfl

theorem mainAfterConfirm_status (fs : FS) (url dir : String) (dl : DlResult) :
    exitStatus (mainAfterConfirm fs url dir dl).1 =
      if (mkdir_exist_ok (pathComponents dir) fs).isSome && dlSuccessB dl
      then 0 else 1 := by
  cases hk : mkdir_exist_ok (pathComponents dir) fs with
  | none => simp [mainAfterConfirm, download_album, hk, exitStatus]
  | some fs' =>
    cases dl with
    | exited c =>
      cases c with
      | zero => simp [mainAfterConfirm, download_album, hk, exitStatus, dlSuccessB]
      | succ c => simp [mainAfterConfirm, download_album, hk, exitStatus, dlSuccessB]
    | interrupted => simp [mainAfterConfirm, download_album, hk, exitStatus, dlSuccessB]

/-- C8 counterexample: a run with the dependency available, a URL argument
present and passing the domain guard, a failed metadata probe, and an
output directory `a/b` whose parent is missing, terminates with process
exit status 1 through an uncaught exception — yet it is none of the four
listed status-1 causes: the dependency check passed, the URL argument
existed and was valid, and the downloader was never invoked, so no
download failure occurred.  This refutes "1 exactly on missing dependency,
missing URL argument, invalid URL domain, or download failure". -/
theorem c8_counterexample :
    exitStatus (main c8Input).1 = 1 ∧
    (main c8Input).1 = MainResult.crashed ∧
    (check_dependencies c8Input.dep).1 = true ∧
    2 ≤ c8Input.argv.length ∧
    urlValidB (urlOf c8Input.argv) = true ∧
    downloaderInvoked (main c8Input).2 = false := by
  refine ⟨rfl, rfl, rfl, by decide, by decide, by decide⟩

/-- C8 amended: the process exit status is 0 exactly on download success or
user cancellation, and 1 exactly on missing dependency, missing URL
argument, invalid URL domain, download failure, or an uncaught
output-directory creation error (missing parent directory). -/
theorem c8_exit_codes (inp : RunInput) :
    (exitStatus (main inp).1 = 0 ↔ (dlSucceededB inp || cancelledB inp) = true) ∧
    (exitStatus (main inp).1 = 1 ↔
      (missingDepB inp || missingArgB inp || badUrlB inp || dlFailedB inp
        || mkdirCrashB inp) = true) := by
  obtain ⟨d, argv, pe, lines, resp, fs, dl⟩ := inp
  cases hd : (check_dependencies d).1 with
  | false =>
    simp [main, hd, exitStatus, dlSucceededB, proceedsB, checksPassB, cancelledB,
      missingDepB, missingArgB, badUrlB, dlFailedB, mkdirCrashB]
  | true =>
    match argv with
    | [] =>
      simp [main, hd, exitStatus, dlSucceededB, proceedsB, checksPassB, cancelledB,
        missingDepB, missingArgB, badUrlB, dlFailedB, mkdirCrashB]
    | [a] =>
      simp [main, hd, exitStatus, dlSucceededB, proceedsB, checksPassB, cancelledB,
        missingDepB, missingArgB, badUrlB, dlFailedB, mkdirCrashB]
    | a :: b :: bs =>
      have hlen : ¬ (bs.length + 1 + 1 < 2) := by omega
      have hlen2 : 2 ≤ bs.length + 1 + 1 := by omega
      cases hu : urlValidB b with
      | false =>
        have hu' := hu
        simp only [urlValidB, Bool.or_eq_false_iff] at hu'
        simp [main, hd, hlen, hlen2, hu'.1, hu'.2, exitStatus, dlSucceededB,
          proceedsB, checksPassB, cancelledB, missingDepB, missingArgB, badUrlB,
          dlFailedB, mkdirCrashB, urlValidB, urlOf]
      | true =>
        have hu' := hu
        simp only [urlValidB, Bool.or_eq_true] at hu'
        have hcond : ¬ (strContains b "youtube.com" = false
            ∧ strContains b "youtu.be" = false) := by
          rcases hu' with hx | hx <;> simp [hx]
        have hcp : checksPassB ⟨d, a :: b :: bs, pe, lines, resp, fs, dl⟩ = true := by
          simp [checksPassB, hd, urlOf]
          exact hu
        have himp : strContains b "youtube.com" = false → strContains b "youtu.be" = true := by
          intro hx
          rcases hu' with h | h
          · simp [hx] at h
          · exact h
        cases pe with
        | zero =>
          cases hr : pyLower resp == "y" with
          | false =>
            have hr' : pyLower resp ≠ "y" := by simpa using hr
            simp [main, hd, hlen, hlen2, hcond, exitStatus, get_playlist_info, hr',
              dlSucceededB, proceedsB, checksPassB, cancelledB, missingDepB,
              missingArgB, badUrlB, dlFailedB, mkdirCrashB, urlValidB, urlOf, hu']
          | true =>
            have hr' : pyLower resp = "y" := by simpa using hr
            have hnr : ¬ (pyLower resp ≠ "y") := by simp [hr']
            rw [show (main ⟨d, a :: b :: bs, 0, lines, resp, fs, dl⟩).1 =
                (mainAfterConfirm fs b (outputDirOf (a :: b :: bs)) dl).1 by
              simp [main, hd, hlen, hcond, get_playlist_info, hnr, outputDirOf]]
            rw [mainAfterConfirm_status]
            cases hmk : (mkdir_exist_ok (pathComponents (outputDirOf (a :: b :: bs))) fs).isSome with
            | false =>
              cases hs : dlSuccessB dl <;>
                simp [hmk, hs, dlSucceededB, dlFailedB, mkdirCrashB, proceedsB, hcp,
                  cancelledB, missingDepB, missingArgB, badUrlB, hd, mkdirOkB, hr',
                  hlen, hlen2, urlValidB, urlOf, hu']
            | true =>
              cases hs : dlSuccessB dl <;>
                simp [hmk, hs, dlSucceededB, dlFailedB, mkdirCrashB, proceedsB, hcp,
                  cancelledB, missingDepB, missingArgB, badUrlB, hd, mkdirOkB, hr',
                  hlen, hlen2, urlValidB, urlOf, hu'] <;> (try exact himp)
        | succ c =>
          rw [show (main ⟨d, a :: b :: bs, c + 1, lines, resp, fs, dl⟩).1 =
              (mainAfterConfirm fs b (outputDirOf (a :: b :: bs)) dl).1 by
            simp [main, hd, hlen, hcond, get_playlist_info, outputDirOf]]
          rw [mainAfterConfirm_status]
          cases hmk : (mkdir_exist_ok (pathComponents (outputDirOf (a :: b :: bs))) fs).isSome with
          | false =>
            cases hs : dlSuccessB dl <;>
              simp [hmk, hs, dlSucceededB, dlFailedB, mkdirCrashB, proceedsB, hcp,
                cancelledB, missingDepB, missingArgB, badUrlB, hd, mkdirOkB,
                hlen, hlen2, urlValidB, urlOf, hu']
          | true =>
            cases hs : dlSuccessB dl <;>
              simp [hmk, hs, dlSucceededB, dlFailedB, mkdirCrashB, proceedsB, hcp,
                cancelledB, missingDepB, missingArgB, badUrlB, hd, mkdirOkB,
                hlen, hlen2, urlValidB, urlOf, hu'] <;> (try exact himp)

end Ytmad
